import Mathlib

/-!
# Verification of the page scene model, mosaic engine and export compositor

Shallow embedding of the core of `src/App.jsx` (a single-file PDF page
editor): rotation-aware dimension computation, the export compositor's
rotation/placement arithmetic, the mosaic downsample geometry, the scene
object model with its serialization, the page store operations (reorder,
remove, deferred scene snapshot) and the page-load guard.

Conventions: JavaScript numbers that carry pixel dimensions or coordinates
are embedded as rationals (`ℚ`); indices and integer-valued sizes as `Nat`
(with `Int` where the program compares against `-1` or forms signed sums);
`Math.floor` is `Int.floor`; a JavaScript value that may be `undefined`
becomes an `Option`.
-/

/-! ## Geometry: rotation-aware dimension swap

Both the page-load effect (`const isRotated = page.rotation % 180 !== 0;
const cw = isRotated ? page.height : page.width; const ch = isRotated ?
page.width : page.height;`, App.jsx lines 338–340) and the export
compositor (`const isRotated = pageData.rotation % 180 !== 0; const
fabricWidth = isRotated ? pageData.height : pageData.width; const
fabricHeight = isRotated ? pageData.width : pageData.height;`, lines
675–680) compute the effective surface dimensions from the stored
unrotated dimensions and the page rotation. Each call site is embedded
separately so their agreement is a theorem, not an assumption. -/

/-- Effective canvas dimensions computed by the page-load effect
(App.jsx lines 338–340). -/
def loadEffectiveDims (w h : ℚ) (rotation : Nat) : ℚ × ℚ :=
  let isRotated := rotation % 180 ≠ 0
  (if isRotated then h else w, if isRotated then w else h)

/-- Effective overlay-canvas dimensions computed by the export compositor
(App.jsx lines 675–680). -/
def exportEffectiveDims (w h : ℚ) (rotation : Nat) : ℚ × ℚ :=
  let isRotated := rotation % 180 ≠ 0
  (if isRotated then h else w, if isRotated then w else h)

/-! ## Export compositor: page rotation and overlay placement -/

/-- Angle handed to `pdfPage.setRotation` during export: the code passes
`degrees(currentRot + pageData.rotation)` (App.jsx lines 672–673), the
plain sum of the copied page's existing rotation and the stored page
rotation, with no reduction modulo 360. -/
def exportPageRotation (currentRot pageRotation : Nat) : Nat :=
  currentRot + pageRotation

/-- Arguments of the single `drawImage` call that places the overlay
raster onto the target page during export. -/
structure DrawCall where
  x : ℚ
  y : ℚ
  w : ℚ
  h : ℚ
  rotate : Nat
  deriving DecidableEq

/-- Placement of the overlay image during export (App.jsx lines 772–791):
for `rotation === 0` the image is drawn at `(0,0)` with the size reported
by `pdfPage.getSize()`; otherwise the draw dimensions are swapped when
`rotation % 180 !== 0`, the rotation is `rotation % 360`, and the origin
offset is `(pdfWidth,0)`, `(pdfWidth,pdfHeight)` or `(0,pdfHeight)` for
90, 180 and 270 degrees respectively (`x = y = 0` for any other angle). -/
def overlayPlacement (rotation : Nat) (pdfWidth pdfHeight : ℚ) : DrawCall :=
  if rotation = 0 then
    { x := 0, y := 0, w := pdfWidth, h := pdfHeight, rotate := 0 }
  else
    let isRotated := rotation % 180 ≠ 0
    let drawW := if isRotated then pdfHeight else pdfWidth
    let drawH := if isRotated then pdfWidth else pdfHeight
    let rot := rotation % 360
    let x := if rot = 90 then pdfWidth else if rot = 180 then pdfWidth else 0
    let y := if rot = 180 then pdfHeight else if rot = 270 then pdfHeight else 0
    { x := x, y := y, w := drawW, h := drawH, rotate := rot }

/-! ## Mosaic engine: block size and downsample dimensions

The live bake (`updateMosaicContent`, App.jsx lines 170–184) and the
export bake (lines 736–742) each read the block size as
`obj.mosaicSize || 10` and compute the downsampled dimensions as
`Math.max(1, Math.floor(w / mosaicSize))` and likewise for the height.
`mosaicSize` is set from `parseInt` of a 1–100 slider, so it is a natural
number when present; the JavaScript `|| 10` makes an absent or zero value
fall back to 10. Each path is embedded separately. -/

/-- Block size used by the live bake path: `obj.mosaicSize || 10`
(App.jsx line 172). -/
def liveEffectiveBlockSize (mosaicSize : Option Nat) : Nat :=
  match mosaicSize with
  | none => 10
  | some v => if v = 0 then 10 else v

/-- Block size used by the export bake path: `obj.mosaicSize || 10`
(App.jsx line 736). -/
def exportEffectiveBlockSize (mosaicSize : Option Nat) : Nat :=
  match mosaicSize with
  | none => 10
  | some v => if v = 0 then 10 else v

/-- Downsampled image dimensions on the live bake path (App.jsx lines
179–180): `smallW = Math.max(1, Math.floor(w / mosaicSize))`,
`smallH = Math.max(1, Math.floor(h / mosaicSize))`. -/
def liveDownsampleDims (mosaicSize : Option Nat) (w h : ℚ) : ℤ × ℤ :=
  let b := liveEffectiveBlockSize mosaicSize
  (max 1 ⌊w / (b : ℚ)⌋, max 1 ⌊h / (b : ℚ)⌋)

/-- Downsampled image dimensions on the export bake path (App.jsx lines
739–740): `sw = Math.max(1, Math.floor(rect.width / mosaicSize))`,
`sh = Math.max(1, Math.floor(rect.height / mosaicSize))`. -/
def exportDownsampleDims (mosaicSize : Option Nat) (w h : ℚ) : ℤ × ℤ :=
  let b := exportEffectiveBlockSize mosaicSize
  (max 1 ⌊w / (b : ℚ)⌋, max 1 ⌊h / (b : ℚ)⌋)

/-! ## Theorems for the geometry and export arithmetic claims -/

/-- C2: for every width `w`, height `h` and rotation `r ∈ {0,90,180,270}`,
the effective-dimension computation returns `(h, w)` exactly when
`r ∈ {90,270}` and `(w, h)` otherwise, and the page-load path and the
export compositor compute it identically. -/
theorem effectiveDims_swap_iff (w h : ℚ) (r : Nat)
    (hr : r = 0 ∨ r = 90 ∨ r = 180 ∨ r = 270) :
    loadEffectiveDims w h r = exportEffectiveDims w h r ∧
    ((r = 90 ∨ r = 270) → loadEffectiveDims w h r = (h, w)) ∧
    ((r = 0 ∨ r = 180) → loadEffectiveDims w h r = (w, h)) := by
  refine ⟨rfl, ?_, ?_⟩ <;>
    rcases hr with h0 | h90 | h180 | h270 <;>
      subst_vars <;> intro hc <;>
        first
          | rfl
          | (rcases hc with hc | hc <;> simp at hc)

/-- Witness for C2 at concrete inputs: rotation 90 swaps, rotation 0 does
not. -/
theorem effectiveDims_swap_iff_witness :
    loadEffectiveDims 3 5 90 = exportEffectiveDims 3 5 90 ∧
    loadEffectiveDims 3 5 90 = (5, 3) ∧
    loadEffectiveDims 3 5 0 = (3, 5) :=
  ⟨(effectiveDims_swap_iff 3 5 90 (Or.inr (Or.inl rfl))).1,
   (effectiveDims_swap_iff 3 5 90 (Or.inr (Or.inl rfl))).2.1 (Or.inl rfl),
   (effectiveDims_swap_iff 3 5 0 (Or.inl rfl)).2.2 (Or.inl rfl)⟩

/-- C3: during export, a page with rotation 0 has its overlay drawn at
`(0,0)` sized to the reported page width/height, and a page with rotation
90, 180 or 270 has its overlay drawn rotated by that same angle with
origin offset `(pageOutW,0)`, `(pageOutW,pageOutH)`, `(0,pageOutH)`
respectively, where `pageOutW`/`pageOutH` are the target page's
width/height as reported before the draw call. -/
theorem overlayPlacement_by_rotation (r : Nat) (pw ph : ℚ)
    (hr : r = 0 ∨ r = 90 ∨ r = 180 ∨ r = 270) :
    (r = 0 → overlayPlacement r pw ph =
      { x := 0, y := 0, w := pw, h := ph, rotate := 0 }) ∧
    (r = 90 → (overlayPlacement r pw ph).x = pw ∧
      (overlayPlacement r pw ph).y = 0 ∧
      (overlayPlacement r pw ph).rotate = 90) ∧
    (r = 180 → (overlayPlacement r pw ph).x = pw ∧
      (overlayPlacement r pw ph).y = ph ∧
      (overlayPlacement r pw ph).rotate = 180) ∧
    (r = 270 → (overlayPlacement r pw ph).x = 0 ∧
      (overlayPlacement r pw ph).y = ph ∧
      (overlayPlacement r pw ph).rotate = 270) := by
  rcases hr with h0 | h90 | h180 | h270 <;> subst_vars <;>
    exact ⟨fun h => by first | rfl | exact absurd h (by decide),
           fun h => by first | exact ⟨rfl, rfl, rfl⟩ | exact absurd h (by decide),
           fun h => by first | exact ⟨rfl, rfl, rfl⟩ | exact absurd h (by decide),
           fun h => by first | exact ⟨rfl, rfl, rfl⟩ | exact absurd h (by decide)⟩

/-- Witness for C3 at a concrete input: a 90-degree page of reported size
200 × 100 has its overlay drawn at offset `(200, 0)` rotated by 90. -/
theorem overlayPlacement_by_rotation_witness :
    (overlayPlacement 90 200 100).x = 200 ∧
    (overlayPlacement 90 200 100).y = 0 ∧
    (overlayPlacement 90 200 100).rotate = 90 :=
  (overlayPlacement_by_rotation 90 200 100 (Or.inr (Or.inl rfl))).2.1 rfl

/-- C4 counterexample: the export code sets the target page rotation to
the plain sum `currentRot + pageData.rotation` with no reduction modulo
360; for an existing rotation of 270 and a stored rotation of 90 the
resulting angle is 360, not the claimed `(270 + 90) mod 360 = 0`, and is
outside `{0, 90, 180, 270}`. -/
theorem exportPageRotation_not_mod360 :
    exportPageRotation 270 90 = 360 ∧
    (270 + 90) % 360 = 0 ∧
    ¬(exportPageRotation 270 90 = 0 ∨ exportPageRotation 270 90 = 90 ∨
      exportPageRotation 270 90 = 180 ∨ exportPageRotation 270 90 = 270) := by
  decide

/-- C4 amended: the target page's rotation is set to the unreduced sum of
the copied page's existing rotation and the stored rotation; when both
are multiples of 90 the result is a multiple of 90 congruent modulo 360
to the spec's value, but it may reach or exceed 360. -/
theorem exportPageRotation_sum (c r : Nat) (hc : c % 90 = 0) (hr : r % 90 = 0) :
    exportPageRotation c r = c + r ∧
    exportPageRotation c r % 360 = (c + r) % 360 ∧
    exportPageRotation c r % 90 = 0 := by
  refine ⟨rfl, rfl, ?_⟩
  show (c + r) % 90 = 0
  omega

/-- Witness for C4 amended at the concrete input 270 + 90. -/
theorem exportPageRotation_sum_witness :
    exportPageRotation 270 90 = 270 + 90 ∧
    exportPageRotation 270 90 % 360 = (270 + 90) % 360 ∧
    exportPageRotation 270 90 % 90 = 0 :=
  exportPageRotation_sum 270 90 (by decide) (by decide)

/-- C5: on both bake paths the effective block size is at least 1 (an
absent or zero `mosaicSize` falls back to 10, any other stored value is a
positive integer), the downsampled dimensions are exactly
`max 1 ⌊w / b⌋ × max 1 ⌊h / b⌋`, and the live path and the export path
compute identical results. -/
theorem downsampleDims_clamped (m : Option Nat) (w h : ℚ) :
    1 ≤ liveEffectiveBlockSize m ∧
    1 ≤ exportEffectiveBlockSize m ∧
    liveDownsampleDims m w h = exportDownsampleDims m w h ∧
    liveDownsampleDims m w h =
      (max 1 ⌊w / (liveEffectiveBlockSize m : ℚ)⌋,
       max 1 ⌊h / (liveEffectiveBlockSize m : ℚ)⌋) := by
  have hb : 1 ≤ liveEffectiveBlockSize m := by
    match m with
    | none => decide
    | some v =>
      cases v with
      | zero => decide
      | succ n => simp [liveEffectiveBlockSize]
  exact ⟨hb, hb, rfl, rfl⟩

/-! ## Scene object model and serialization (C1)

The repository persists a scene with `fabricCanvas.toJSON(['id',
'isMosaic', 'mosaicSize', 'selectable', 'evented', 'strokeUniform',
'lockUniScaling'])` and restores it with `loadFromJSON` (App.jsx lines
96–98 and 345–363); the tagged-record encoding itself lives in the fabric
library, outside this repository. The serialization is therefore modelled
from the spec (§4.2, §3): a `SceneDocument` is an ordered list of tagged
records carrying only the §3 descriptor fields — position, size, opacity,
fill/stroke color, stroke width, font size, image source,
`mosaicBlockSize` and the mosaic marker (the record's tag); baked mosaic
pixels are never part of it. -/

/-- A drawable scene object, one constructor per §3 variant. Position is
the center `(x, y)`; `w`/`h` the size; opacity a rational. The mosaic
variant carries only its vector descriptor. -/
inductive SceneObject where
  | filledRect (x y w h opacity : ℚ) (fill : String)
  | outlinedRect (x y w h opacity : ℚ) (stroke : String) (strokeWidth : ℚ)
  | arrow (x y w h opacity : ℚ) (stroke : String) (strokeWidth : ℚ)
  | text (x y w h opacity : ℚ) (fill : String) (fontSize : ℚ)
  | image (x y w h opacity : ℚ) (src : String)
  | mosaicRegion (x y w h opacity : ℚ) (mosaicBlockSize : ℚ)
  deriving DecidableEq

/-- Variant tag of a serialized record; the `mosaicRegion` tag is the
persisted "not yet baked" mosaic marker. -/
inductive SceneTag where
  | filledRect
  | outlinedRect
  | arrow
  | text
  | image
  | mosaicRegion
  deriving DecidableEq

/-- Modelled from the spec: one tagged record of a `SceneDocument`
(§4.2); the fabric `toJSON` encoding that produces it is library code,
not part of this repository. Fields absent for a variant are `none`. -/
structure SceneRecord where
  tag : SceneTag
  x : ℚ
  y : ℚ
  w : ℚ
  h : ℚ
  opacity : ℚ
  fill : Option String := none
  stroke : Option String := none
  strokeWidth : Option ℚ := none
  fontSize : Option ℚ := none
  src : Option String := none
  mosaicBlockSize : Option ℚ := none
  deriving DecidableEq

/-- Modelled from the spec: serialize one scene object to its tagged
record, keeping only the §3 descriptor fields (§4.2). -/
def serializeObject : SceneObject → SceneRecord
  | .filledRect x y w h o f =>
      { tag := .filledRect, x := x, y := y, w := w, h := h, opacity := o,
        fill := some f }
  | .outlinedRect x y w h o s sw =>
      { tag := .outlinedRect, x := x, y := y, w := w, h := h, opacity := o,
        stroke := some s, strokeWidth := some sw }
  | .arrow x y w h o s sw =>
      { tag := .arrow, x := x, y := y, w := w, h := h, opacity := o,
        stroke := some s, strokeWidth := some sw }
  | .text x y w h o f fs =>
      { tag := .text, x := x, y := y, w := w, h := h, opacity := o,
        fill := some f, fontSize := some fs }
  | .image x y w h o src =>
      { tag := .image, x := x, y := y, w := w, h := h, opacity := o,
        src := some src }
  | .mosaicRegion x y w h o b =>
      { tag := .mosaicRegion, x := x, y := y, w := w, h := h, opacity := o,
        mosaicBlockSize := some b }

/-- Modelled from the spec: deserialize one tagged record back into a
scene object; fails (`none`) when a field the tag requires is missing
(§4.2). -/
def deserializeObject (r : SceneRecord) : Option SceneObject :=
  match r.tag with
  | .filledRect =>
      match r.fill with
      | some f => some (.filledRect r.x r.y r.w r.h r.opacity f)
      | none => none
  | .outlinedRect =>
      match r.stroke, r.strokeWidth with
      | some s, some sw => some (.outlinedRect r.x r.y r.w r.h r.opacity s sw)
      | _, _ => none
  | .arrow =>
      match r.stroke, r.strokeWidth with
      | some s, some sw => some (.arrow r.x r.y r.w r.h r.opacity s sw)
      | _, _ => none
  | .text =>
      match r.fill, r.fontSize with
      | some f, some fs => some (.text r.x r.y r.w r.h r.opacity f fs)
      | _, _ => none
  | .image =>
      match r.src with
      | some s => some (.image r.x r.y r.w r.h r.opacity s)
      | none => none
  | .mosaicRegion =>
      match r.mosaicBlockSize with
      | some b => some (.mosaicRegion r.x r.y r.w r.h r.opacity b)
      | none => none

/-- Modelled from the spec: a scene is serialized to the ordered list of
its objects' tagged records, z-order = list order (§4.2). -/
def serializeScene (scene : List SceneObject) : List SceneRecord :=
  scene.map serializeObject

/-- Modelled from the spec: a `SceneDocument` is deserialized record by
record, in order; the whole document fails if any record does (§4.2). -/
def deserializeScene : List SceneRecord → Option (List SceneObject)
  | [] => some []
  | r :: rest =>
    match deserializeObject r, deserializeScene rest with
    | some o, some os => some (o :: os)
    | _, _ => none

/-- Round trip of a single object. -/
theorem deserializeObject_serializeObject (o : SceneObject) :
    deserializeObject (serializeObject o) = some o := by
  cases o <;> rfl

/-- C1: serializing any scene to a `SceneDocument` and deserializing that
document succeeds and returns the identical scene — the same object
count, the same z-order, and every variant field (position, size,
opacity, fill/stroke color, stroke width, font size, image source,
`mosaicBlockSize`, mosaic marker) exactly equal to the original. -/
theorem serializeScene_roundtrip (scene : List SceneObject) :
    deserializeScene (serializeScene scene) = some scene := by
  induction scene with
  | nil => rfl
  | cons o rest ih =>
    simp only [serializeScene, List.map_cons, deserializeScene,
      deserializeObject_serializeObject]
    simp only [serializeScene] at ih
    rw [ih]

/-! ## Mosaic bake paths: degenerate-geometry behaviour (C6)

The live bake `updateMosaicContent` (App.jsx lines 133–205) hides the
object, reads `rect = obj.getBoundingRect(true)` and, when
`rect.width <= 0 || rect.height <= 0`, restores visibility and returns —
the object is left untouched. The export bake (lines 709–756) has no
such guard: when the static canvas has a background image it sets the
object's stroke to `'transparent'` (removing the editing outline, as the
export does for every mosaic) and then captures the bounding rectangle
with `toDataURL`. In fabric 5.3.1 the capture canvas is sized
`cropping.width || this.width` by `cropping.height || this.height`, so a
zero cropping dimension silently falls back to the full canvas
dimension; the capture therefore always yields a loadable image,
`img.onload` runs, and `obj.setElement` replaces the element with a
final canvas of the rectangle's own (possibly zero) size. Bounding-rect
dimensions are non-negative in fabric, so zero is the reachable
degenerate case. Both paths are embedded as functions of the object, its
bounding-rectangle size and (for the export capture fallback) the
overlay canvas size. -/

/-- Dimensions recorded for a baked mosaic element: the captured source
size fed to the downsample, the downsampled size, and the final
(original-rectangle) size the small image is scaled back to with
nearest-neighbor interpolation. -/
structure BakedContent where
  capW : ℚ
  capH : ℚ
  smallW : ℤ
  smallH : ℤ
  outW : ℚ
  outH : ℚ
  deriving DecidableEq

/-- State of a fabric mosaic object as the bake paths touch it. -/
structure MosaicObject where
  visible : Bool
  stroke : String
  mosaicSize : Option Nat
  element : Option BakedContent
  deriving DecidableEq

/-- Live bake path `updateMosaicContent` (App.jsx lines 133–205): when
the bounding rectangle has non-positive width or height the function
restores visibility and returns with the object unchanged; otherwise the
`img.onload` callback replaces the object's element with the baked
content (the guard makes the capture size the rectangle size — the
fallback cannot trigger here). -/
def updateMosaicContentBake (obj : MosaicObject) (rectW rectH : ℚ) :
    MosaicObject :=
  if rectW ≤ 0 ∨ rectH ≤ 0 then obj
  else
    let dims := liveDownsampleDims obj.mosaicSize rectW rectH
    { obj with element := some ⟨rectW, rectH, dims.1, dims.2, rectW, rectH⟩ }

/-- Export bake path (App.jsx lines 709–756). With a background present
the stroke is unconditionally cleared before capture and there is no
degenerate-geometry guard: the capture falls back to the full overlay
canvas dimension for a zero rectangle dimension (fabric's
`cropping.width || this.width`), the image loads, and the element is
unconditionally replaced with a bake whose final size is the
rectangle's own — zero-width content when `rect.width` is 0. Without a
background the mosaic branch is skipped entirely. -/
def exportBake (obj : MosaicObject) (rectW rectH canvasW canvasH : ℚ)
    (hasBackground : Bool) : MosaicObject :=
  if hasBackground then
    let obj1 := { obj with stroke := "transparent" }
    let capW := if rectW = 0 then canvasW else rectW
    let capH := if rectH = 0 then canvasH else rectH
    let dims := exportDownsampleDims obj1.mosaicSize rectW rectH
    { obj1 with element := some ⟨capW, capH, dims.1, dims.2, rectW, rectH⟩ }
  else obj

/-- A freshly added mosaic object: visible, with its blue dashed
selection outline (App.jsx lines 554–564), block size 10, not yet baked. -/
def sampleMosaic : MosaicObject :=
  { visible := true, stroke := "#3b82f6", mosaicSize := some 10,
    element := none }

/-- C6 counterexample: on the export bake path (page background present,
overlay canvas 800 × 600) a mosaic whose bounding rectangle is 0 × 120
is not skipped: the object comes out changed — its stroke cleared and
its element replaced by a bake captured from the full-width fallback
(800 × 120), downsampled to 1 × 12 and emitted at the rectangle's own
zero width — so bake is not a no-op on every path. -/
theorem exportBake_degenerate_not_noop :
    updateMosaicContentBake sampleMosaic 0 120 = sampleMosaic ∧
    exportBake sampleMosaic 0 120 800 600 true ≠ sampleMosaic ∧
    exportBake sampleMosaic 0 120 800 600 true =
      { visible := true, stroke := "transparent", mosaicSize := some 10,
        element := some { capW := 800, capH := 120, smallW := 1,
                          smallH := 12, outW := 0, outH := 120 } } := by
  have he : exportBake sampleMosaic 0 120 800 600 true =
      { visible := true, stroke := "transparent", mosaicSize := some 10,
        element := some { capW := 800, capH := 120, smallW := 1,
                          smallH := 12, outW := 0, outH := 120 } } := by
    have h120 : ((120 : ℚ) / 10) = 12 := by norm_num
    simp [exportBake, exportDownsampleDims, exportEffectiveBlockSize,
      sampleMosaic, h120]
  refine ⟨rfl, ?_, he⟩
  rw [he]
  intro h
  have := congrArg MosaicObject.stroke h
  simp [sampleMosaic] at this

/-- C6 amended: for every mosaic object and every bounding rectangle
with non-positive width or height, the live bake path is a silent no-op
leaving the object unchanged; the export bake path (background present)
has no such guard and proceeds unconditionally — the editing stroke is
cleared and the element is always replaced with a fresh bake, the
capture having fallen back to the overlay canvas dimension wherever the
rectangle dimension is zero. -/
theorem mosaicBake_degenerate_guard_live_only
    (obj : MosaicObject) (rectW rectH canvasW canvasH : ℚ)
    (hdeg : rectW ≤ 0 ∨ rectH ≤ 0) :
    updateMosaicContentBake obj rectW rectH = obj ∧
    (exportBake obj rectW rectH canvasW canvasH true).stroke =
      "transparent" ∧
    (exportBake obj rectW rectH canvasW canvasH true).element =
      some { capW := if rectW = 0 then canvasW else rectW,
             capH := if rectH = 0 then canvasH else rectH,
             smallW := (exportDownsampleDims obj.mosaicSize rectW rectH).1,
             smallH := (exportDownsampleDims obj.mosaicSize rectW rectH).2,
             outW := rectW, outH := rectH } := by
  refine ⟨?_, rfl, rfl⟩
  simp [updateMosaicContentBake, hdeg]

/-- Witness for C6 amended at the 0 × 120 rectangle on an 800 × 600
overlay canvas: the live bake leaves the object unchanged while the
export bake clears the stroke and installs a bake captured at the
800-wide fallback. -/
theorem mosaicBake_degenerate_guard_live_only_witness :
    updateMosaicContentBake sampleMosaic 0 120 = sampleMosaic ∧
    (exportBake sampleMosaic 0 120 800 600 true).stroke = "transparent" ∧
    (exportBake sampleMosaic 0 120 800 600 true).element =
      some { capW := 800, capH := 120,
             smallW := (exportDownsampleDims sampleMosaic.mosaicSize 0 120).1,
             smallH := (exportDownsampleDims sampleMosaic.mosaicSize 0 120).2,
             outW := 0, outH := 120 } := by
  have h := mosaicBake_degenerate_guard_live_only sampleMosaic 0 120 800 600
    (Or.inl (le_refl 0))
  refine ⟨h.1, h.2.1, ?_⟩
  rw [h.2.2]
  norm_num

/-! ## Multi-object style edits (C7)

`updateSelectedObject` (App.jsx lines 574–606) collects the current
selection (`active.getObjects()` for an `activeSelection`, else the
single active object), mutates every object in a `forEach` according to
the edited key, and then calls `saveCurrentState()` exactly once, after
the loop. The `forEach` body itself never snapshots. The handler is
embedded as a function from the selection to the updated objects paired
with the number of scene-snapshot calls it makes. -/

/-- State of a fabric object as the style-edit branches touch it
(`stroke = none` embeds a null stroke, which is falsy in the
JavaScript guards). -/
structure FabObject where
  type : String
  isMosaic : Bool
  fill : String
  stroke : Option String
  strokeWidth : ℚ
  fontSize : ℚ
  opacity : ℚ
  mosaicSize : Nat
  deriving DecidableEq

/-- One style edit: the three keys of the properties panel with their
parsed payloads (`parseFloat` for opacity, `parseInt` for size). -/
inductive StyleEdit where
  | color (c : String)
  | opacity (q : ℚ)
  | size (n : Nat)
  deriving DecidableEq

/-- Per-object body of the `forEach` in `updateSelectedObject` (App.jsx
lines 584–602): color updates fill (unless transparent, mosaic or
image), a non-transparent stroke, and text fill; opacity is set
directly; size updates the mosaic block size, the text font size
(4 × the value) or the stroke width of stroked shapes. -/
def applyStyleEdit (obj : FabObject) (e : StyleEdit) : FabObject :=
  match e with
  | .color c =>
    let o1 :=
      if obj.fill ≠ "transparent" ∧ obj.isMosaic = false ∧ obj.type ≠ "image"
      then { obj with fill := c } else obj
    let o2 :=
      match o1.stroke with
      | some s => if s ≠ "transparent" then { o1 with stroke := some c } else o1
      | none => o1
    if o2.type = "i-text" then { o2 with fill := c } else o2
  | .opacity q => { obj with opacity := q }
  | .size n =>
    if obj.isMosaic then { obj with mosaicSize := n }
    else if obj.type = "i-text" then { obj with fontSize := (n : ℚ) * 4 }
    else if obj.stroke ≠ none then { obj with strokeWidth := (n : ℚ) }
    else obj

/-- The `updateSelectedObject` handler (App.jsx lines 574–606) applied to
a selection: every selected object goes through `applyStyleEdit`, and
`saveCurrentState` runs exactly once, after the loop — the second
component counts the snapshot calls the handler makes. -/
def updateSelectedObject (selection : List FabObject) (e : StyleEdit) :
    List FabObject × Nat :=
  (selection.map (fun obj => applyStyleEdit obj e), 1)

/-- C7: a style edit on a multi-object selection updates the edited field
on every selected object (here the opacity key, as in the spec's
3-object example) while producing exactly one scene snapshot, not one
per object; the object count is preserved. -/
theorem updateSelectedObject_atomic (selection : List FabObject) (q : ℚ) :
    (updateSelectedObject selection (.opacity q)).1.length =
      selection.length ∧
    ((updateSelectedObject selection (.opacity q)).1.all
      (fun o => decide (o.opacity = q))) = true ∧
    (updateSelectedObject selection (.opacity q)).2 = 1 := by
  refine ⟨by simp [updateSelectedObject], ?_, rfl⟩
  induction selection with
  | nil => rfl
  | cons o rest ih =>
    simp [updateSelectedObject, applyStyleEdit] at ih ⊢

/-! ## Page reordering (C8)

Two reorder paths exist. `movePage(fromIndex, direction)` (App.jsx lines
627–644) moves a page one step, guards the target index, splices the
list, and updates `currentIndex` when it equals the source or the target
index. The drag-and-drop `onDrop` handler of the page list (lines
860–869) splices the dragged page to the drop index but never touches
`currentIndex`. Both are embedded as pure state transformers on
`(pages, currentIndex)`. -/

/-- JavaScript `splice(fromIdx, 1)` followed by `splice(toIdx, 0, item)`:
remove the element at `fromIdx` and re-insert it at `toIdx` (identity
when `fromIdx` is out of range, which the callers never produce). -/
def spliceMove (l : List α) (fromIdx toIdx : Nat) : List α :=
  match l[fromIdx]? with
  | none => l
  | some item => (l.eraseIdx fromIdx).insertIdx toIdx item

/-- Step reorder `movePage` (App.jsx lines 627–644): compute
`toIndex = fromIndex + direction`, return unchanged when `toIndex` is out
of range, otherwise splice and move `currentIndex` with the page when it
was the source (or swap-compensate when it was the target). -/
def movePage (pages : List α) (currentIndex : Int) (fromIndex : Nat)
    (direction : Int) : List α × Int :=
  let toIndex : Int := (fromIndex : Int) + direction
  if toIndex < 0 ∨ (pages.length : Int) ≤ toIndex then (pages, currentIndex)
  else
    let newPages := spliceMove pages fromIndex toIndex.toNat
    let newCurrent :=
      if currentIndex = (fromIndex : Int) then toIndex
      else if currentIndex = toIndex then (fromIndex : Int)
      else currentIndex
    (newPages, newCurrent)

/-- Drag-and-drop reorder (App.jsx lines 860–869): splice the dragged
page to the drop index; `currentIndex` is left untouched — the handler
sets only `pages`, `draggedIndex` and `dropTargetIndex`. -/
def onDropHandler (pages : List α) (currentIndex : Int)
    (draggedIndex dropIndex : Nat) : List α × Int :=
  (spliceMove pages draggedIndex dropIndex, currentIndex)

/-- C8 counterexample: dragging page A (id 10, active, index 0) of
[A, B, C] to index 2 produces [B, C, A] but leaves the active index at 0,
so the active index does not become 2 and the active page silently
becomes B — the claim's "active page identity is preserved across every
reorder" fails on the drag-and-drop path. -/
theorem dragReorder_drops_active_identity :
    (onDropHandler [10, 20, 30] 0 0 2).1 = [20, 30, 10] ∧
    (onDropHandler [10, 20, 30] 0 0 2).2 = 0 ∧
    ¬(onDropHandler [10, 20, 30] 0 0 2).2 = 2 := by
  decide

/-- C8 amended: moving page A (id 10, active) of [A, B, C] to index 2
with the step-reorder path — two `movePage` calls of direction +1 —
yields [B, C, A] with the active index following A to 2, preserving the
active page's identity; the drag-and-drop reorder produces the same list
[B, C, A] but leaves the active index unchanged at 0, so active-page
identity is preserved only by the `movePage` path. -/
theorem movePage_scenario_preserves_active :
    movePage [10, 20, 30] 0 0 1 = ([20, 10, 30], 1) ∧
    movePage [20, 10, 30] 1 1 1 = ([20, 30, 10], 2) ∧
    (onDropHandler [10, 20, 30] 0 0 2).1 = [20, 30, 10] ∧
    (onDropHandler [10, 20, 30] 0 0 2).2 = 0 := by
  decide

/-! ## Stored pages and deferred writes (C9)

A stored page (App.jsx lines 413–422): id, source page number, rotation,
unrotated pixel dimensions, thumbnail and the serialized scene
(`fabricData`, `null` until first saved). The deferred part of
`saveCurrentState` (lines 100–107) is the `setPages` updater closure: it
re-checks that the page at `currentIndex` still exists and still has the
id captured when the save was scheduled, skips the write when the
serialized scene is unchanged (the code compares `JSON.stringify`
output; structural equality of the records embeds it), and otherwise
replaces that page's `fabricData`. The deferred mosaic bakes — the
`img.onload` callback of `updateMosaicContent` (lines 168–204) and the
`setTimeout` re-bake scheduled by `loadObjects` (lines 350–356) — run
`updateMosaicContent`, whose only guard (line 134) is
`!fabricCanvas.current || !obj || !obj.isMosaic`: nothing checks that
the captured object is still among the canvas's objects or that its page
still exists. -/

/-- A stored page of the page list (App.jsx lines 413–422). -/
structure Page where
  id : Nat
  pageNum : Nat
  rotation : Nat
  width : ℚ
  height : ℚ
  hasThumb : Bool
  fabricData : Option (List SceneRecord)
  deriving DecidableEq

/-- JavaScript indexing `l[i]` with a possibly negative index:
`undefined` (`none`) when `i < 0` or past the end. -/
def listGetInt (l : List α) (i : Int) : Option α :=
  if i < 0 then none else l[i.toNat]?

/-- Deferred `setPages` updater of `saveCurrentState` (App.jsx lines
100–107): discard the write when the page at `currentIndex` is gone or
its id differs from the one captured at scheduling time; skip it when
the stored scene already equals the snapshot; otherwise store the
snapshot. -/
def saveCurrentStateUpdater (prev : List Page) (currentIndex : Int)
    (currentPageId : Nat) (json : List SceneRecord) : List Page :=
  match listGetInt prev currentIndex with
  | none => prev
  | some p =>
    if p.id ≠ currentPageId then prev
    else if p.fabricData = some json then prev
    else prev.set currentIndex.toNat { p with fabricData := some json }

/-- The object reference a deferred bake captured: its identity and its
`isMosaic` flag. -/
structure CanvasObjectRef where
  id : Nat
  isMosaic : Bool
  deriving DecidableEq

/-- The live editing surface as a deferred bake can observe it: the ids
of the objects currently on it. -/
structure LiveCanvas where
  objectIds : List Nat
  deriving DecidableEq

/-- Guard of `updateMosaicContent` (App.jsx line 134), the only check a
deferred mosaic bake performs before writing its result: the canvas
reference and the object reference are non-null and the object is
flagged mosaic. The canvas contents — and hence whether the object still
exists anywhere — are not consulted. -/
def deferredBakeWrites (canvas : Option LiveCanvas)
    (obj : Option CanvasObjectRef) : Bool :=
  match canvas, obj with
  | some _, some o => o.isMosaic
  | _, _ => false

/-- A canvas holding no objects (its page was switched or its objects
removed while a bake was pending). -/
def emptyCanvas : LiveCanvas := { objectIds := [] }

/-- A stale captured mosaic reference: object id 7, no longer on any
canvas. -/
def staleMosaicRef : CanvasObjectRef := { id := 7, isMosaic := true }

/-- C9 counterexample: a deferred mosaic bake whose target object (id 7)
is no longer among the canvas's objects still passes the only guard the
code has and proceeds to write its result — deferred bakes are not
discarded when their target no longer exists. -/
theorem deferredBake_writes_to_missing_object :
    deferredBakeWrites (some emptyCanvas) (some staleMosaicRef) = true ∧
    emptyCanvas.objectIds.contains staleMosaicRef.id = false := by
  decide

/-- C9 amended: the deferred scene snapshot does carry a stale-write
guard — whenever the page at the captured index is gone or no longer has
the captured id, the updater returns the list unchanged — while the
deferred mosaic bakes check only that the canvas and object references
are non-null and the object is flagged mosaic, independent of the
object's continued existence. -/
theorem saveUpdater_stale_guard (prev : List Page) (i : Int) (pid : Nat)
    (json : List SceneRecord)
    (h : (listGetInt prev i).map Page.id ≠ some pid) :
    saveCurrentStateUpdater prev i pid json = prev ∧
    ∀ c o, deferredBakeWrites (some c) (some o) = o.isMosaic := by
  refine ⟨?_, fun c o => rfl⟩
  cases hm : listGetInt prev i with
  | none => simp [saveCurrentStateUpdater, hm]
  | some p =>
    have hp : p.id ≠ pid := fun he => h (by rw [hm]; exact congrArg some he)
    simp [saveCurrentStateUpdater, hm, hp]

/-- A concrete stored page used by the closed witnesses. -/
def samplePage : Page :=
  { id := 1, pageNum := 1, rotation := 0, width := 100, height := 200,
    hasThumb := true, fabricData := none }

/-- Witness for C9 amended: a snapshot captured for page id 99 resolving
against a store whose only page has id 1 is discarded; the bake guard at
the stale reference reduces to the `isMosaic` flag alone. -/
theorem saveUpdater_stale_guard_witness :
    saveCurrentStateUpdater [samplePage] 0 99 [] = [samplePage] ∧
    deferredBakeWrites (some emptyCanvas) (some staleMosaicRef) =
      staleMosaicRef.isMosaic :=
  ⟨(saveUpdater_stale_guard [samplePage] 0 99 [] (by decide)).1,
   (saveUpdater_stale_guard [samplePage] 0 99 [] (by decide)).2
     emptyCanvas staleMosaicRef⟩

/-! ## Page removal and the page-load guard (C10)

The delete button (App.jsx line 900) runs only
`setPages(p => p.filter((_, i) => i !== idx))`; `currentIndex` is not
touched. The page-load effect (lines 333–336) reads
`const page = pages[currentIndex]` and returns before touching the
editing surface when the page is missing. -/

/-- The delete button's `filter((_, i) => i !== idx)` (App.jsx line
900). -/
def removeAtIndexFilter (l : List α) (idx : Nat) : List α :=
  (l.enum.filter (fun pr => pr.1 != idx)).map Prod.snd

/-- The whole delete-button click handler as a transformer of
`(pages, currentIndex)`: it filters the page out and leaves
`currentIndex` as it was. -/
def deletePageHandler (pages : List Page) (currentIndex : Int)
    (idx : Nat) : List Page × Int :=
  (removeAtIndexFilter pages idx, currentIndex)

/-- The editing surface as the page-load effect touches it. -/
structure Surface where
  width : ℚ
  height : ℚ
  cleared : Bool
  loadedScene : Option (List SceneRecord)
  deriving DecidableEq

/-- Page-load effect (App.jsx lines 333–363): when
`pages[currentIndex]` is missing the effect returns at once and the
surface is untouched; otherwise the surface is resized to the effective
dimensions, cleared, and the stored scene is loaded onto it. -/
def pageLoadEffect (pages : List Page) (currentIndex : Int)
    (s : Surface) : Surface :=
  match listGetInt pages currentIndex with
  | none => s
  | some page =>
    let dims := loadEffectiveDims page.width page.height page.rotation
    { width := dims.1, height := dims.2, cleared := true,
      loadedScene := page.fabricData }

/-- C10: removing a page — any position, including the active page or the
last page — never changes the active page index, and when the active
index is out of range afterwards the page-load step leaves the editing
surface untouched instead of failing. -/
theorem deletePage_keeps_activeIndex (pages : List Page) (curr : Int)
    (idx : Nat) (s : Surface) :
    (deletePageHandler pages curr idx).2 = curr ∧
    (listGetInt (deletePageHandler pages curr idx).1 curr = none →
      pageLoadEffect (deletePageHandler pages curr idx).1 curr s = s) := by
  refine ⟨rfl, fun h => ?_⟩
  simp [pageLoadEffect, h]

/-- A concrete surface state used by the C10 witness. -/
def sampleSurface : Surface :=
  { width := 800, height := 600, cleared := false, loadedScene := none }

/-- Witness for C10: deleting the only (active) page keeps the active
index at 0, and the subsequent load step over the now-empty list leaves
the surface untouched. -/
theorem deletePage_keeps_activeIndex_witness :
    (deletePageHandler [samplePage] 0 0).2 = 0 ∧
    pageLoadEffect (deletePageHandler [samplePage] 0 0).1 0 sampleSurface =
      sampleSurface :=
  ⟨(deletePage_keeps_activeIndex [samplePage] 0 0 sampleSurface).1,
   (deletePage_keeps_activeIndex [samplePage] 0 0 sampleSurface).2
     (by decide)⟩
